import Mathlib

/-!
Verification of the integration-scenario extraction app (`src/main.py`).

The app normalizes a model response (a JSON array of scenario objects) into
display records, gates the action on an environment credential, decodes the
uploaded document bytes as UTF-8 with replacement, and exports the records
as CSV.  The definitions below are a shallow embedding of that code; the
theorems settle the specification claims about it.
-/

/-- A Python string-valued dict entry: either absent (`s.get(...)` returns
`None`) or a string value. -/
inductive PyStr where
  | missing : PyStr
  | str : String → PyStr
deriving DecidableEq, Repr

/-- The `related_modules_functions_systems` entry of a scenario dict: absent,
a list of strings, or a (non-list) string value. -/
inductive PyModules where
  | missing : PyModules
  | list : List String → PyModules
  | str : String → PyModules
deriving DecidableEq, Repr

/-- One element of the model's `scenarios` array (`s` in the loop of
`extract_scenarios_with_function_call`). -/
structure Scenario where
  requirement_location : PyStr
  integration_flow_summary : PyStr
  related_modules_functions_systems : PyModules
  test_scenario_integration : PyStr
  flow_type : PyStr
deriving DecidableEq, Repr

/-- One normalized output row (the dict appended to `norm`). -/
structure Record where
  requirementLocation : String
  integrationFlowSummary : String
  relatedModules : String
  testScenario : String
  mainAltExceptionFlow : String
deriving DecidableEq, Repr

/-- The default literal used by the normalizer. -/
def notSpecified : String := "Not specified in document"

/-- `s.get(field) or default`: Python falsiness for the string case, where
`None` and `""` are falsy. -/
def orDefault : PyStr → String → String
  | PyStr.missing, d => d
  | PyStr.str s, d => if s = "" then d else s

/-- `s.get("related_modules_functions_systems") or []`: the value after the
`or []` fallback.  `Sum.inl` is a Python list (so `isinstance(modules, list)`
holds), `Sum.inr` is a truthy non-list (string) value. -/
def modulesVal : PyModules → List String ⊕ String
  | PyModules.missing => Sum.inl []
  | PyModules.list ms => Sum.inl ms
  | PyModules.str s => if s = "" then Sum.inl [] else Sum.inr s

/-- Iterating a modules value in Python: a list yields its entries, a string
yields its characters as one-character strings. -/
def itemsOf : List String ⊕ String → List String
  | Sum.inl ms => ms
  | Sum.inr s => s.data.map (fun c => String.mk [c])

/-- The scenario survives the `isinstance(modules, list) and len(modules) < 2`
filter (the loop does not `continue`). -/
def survives (s : Scenario) : Bool :=
  match modulesVal s.related_modules_functions_systems with
  | Sum.inl ms => decide (¬ ms.length < 2)
  | Sum.inr _ => true

/-- Python's `", ".join(...)` (and any other `sep.join(...)`). -/
def pyJoin (sep : String) : List String → String
  | [] => ""
  | [x] => x
  | x :: rest => x ++ sep ++ pyJoin sep rest

/-- ASCII whitespace as stripped by Python's `str.strip()`. -/
def pyIsSpace (c : Char) : Bool :=
  c = ' ' || c = '\t' || c = '\n' || c = '\r' || c = '\x0b' || c = '\x0c'

/-- Python's `str.strip()`: remove leading and trailing whitespace. -/
def pyStrip (s : String) : String :=
  String.mk (((s.data.dropWhile pyIsSpace).reverse.dropWhile pyIsSpace).reverse)

/-- `", ".join([m.strip() for m in modules if str(m).strip()])`. -/
def joinModules (s : Scenario) : String :=
  pyJoin ", "
    (((itemsOf (modulesVal s.related_modules_functions_systems)).filter
        (fun m => pyStrip m ≠ "")).map pyStrip)

/-- The record appended to `norm` for a surviving scenario. -/
def normRecord (s : Scenario) : Record :=
  { requirementLocation := orDefault s.requirement_location notSpecified
    integrationFlowSummary := orDefault s.integration_flow_summary notSpecified
    relatedModules := joinModules s
    testScenario := orDefault s.test_scenario_integration notSpecified
    mainAltExceptionFlow := orDefault s.flow_type notSpecified }

/-- The normalization loop of `extract_scenarios_with_function_call`:
append `normRecord s` for each scenario that survives the module filter. -/
def normalizeScenarios (scenarios : List Scenario) : List Record :=
  scenarios.filterMap (fun s => if survives s then some (normRecord s) else none)

example : normalizeScenarios
    [Scenario.mk PyStr.missing (PyStr.str "") (PyModules.list ["A", " B "])
      (PyStr.str "t") PyStr.missing] =
    [Record.mk "Not specified in document" "Not specified in document" "A, B" "t"
      "Not specified in document"] := by decide

example : normalizeScenarios
    [Scenario.mk PyStr.missing PyStr.missing (PyModules.list ["A"]) PyStr.missing
      PyStr.missing] = [] := by decide

example : joinModules
    (Scenario.mk PyStr.missing PyStr.missing (PyModules.str "AB") PyStr.missing
      PyStr.missing) = "A, B" := by decide

/-- The decoded JSON object of a tool call's `arguments` string:
`parsed.get("scenarios", [])` reads the optional `scenarios` array. -/
structure Args where
  scenarios : Option (List Scenario)
deriving DecidableEq

/-- The `function` payload of a tool call (`tool_calls[0].function`). -/
structure ToolFunction where
  arguments : Args
deriving DecidableEq

/-- One tool call of the model's message. -/
structure ToolCall where
  function : ToolFunction
deriving DecidableEq

/-- The message's `tool_calls` attribute: `none` models the attribute being
`None` (or absent, via `getattr(msg, "tool_calls", None)`); `some` a list. -/
abbrev ToolCalls := Option (List ToolCall)

/-- Python falsiness of `tool_calls`: `None` and `[]` are falsy. -/
def toolCallsFalsy : ToolCalls → Bool
  | none => true
  | some tcs => tcs.isEmpty

/-- The error message raised when the model returns no function call. -/
def noFunctionCallMsg : String :=
  "Model did not return a function call. Try a smaller document or adjust content."

/-- The post-response part of `extract_scenarios_with_function_call`: raise if
`tool_calls` is falsy, otherwise parse the first tool call's arguments, read
the `scenarios` array (default `[]`) and normalize it. -/
def extract_scenarios_with_function_call (toolCalls : ToolCalls) :
    Except String (List Record) :=
  if toolCallsFalsy toolCalls then
    Except.error noFunctionCallMsg
  else
    match toolCalls with
    | some (tc :: _) =>
        Except.ok (normalizeScenarios (tc.function.arguments.scenarios.getD []))
    | _ => Except.error noFunctionCallMsg

/-- Python falsiness of `os.getenv("OPENAI_API_KEY")`: unset (`None`) or the
empty string. -/
def envFalsy : Option String → Bool
  | none => true
  | some s => s = ""

/-- What the page shows after the button is pressed. -/
inductive UiOutcome where
  | errorMsg : String → UiOutcome
  | warning : String → UiOutcome
  | success : List Record → String → UiOutcome
deriving DecidableEq

/-- The credential error message shown by the main action. -/
def apiKeyMsg : String :=
  "OPENAI_API_KEY is not set. Please set it in your environment and retry."

/-- The warning shown when zero records survive normalization. -/
def emptyRowsMsg : String :=
  "No integration flows found (2+ modules). Check the document content."

/-- The five fixed column headers of the output table and CSV. -/
def csvHeaders : List String :=
  ["Requirement Location (as per document)",
   "Integration Flow Summary",
   "Related Modules/Functions/Systems",
   "Test Scenario (Integration)",
   "Main/Alternate/Exception Flow"]

/-- The five field values of a record, in column order. -/
def recordFields (r : Record) : List String :=
  [r.requirementLocation, r.integrationFlowSummary, r.relatedModules,
   r.testScenario, r.mainAltExceptionFlow]

/-- A CSV field needs quoting (csv.QUOTE_MINIMAL, as used by
`DataFrame.to_csv`) when it contains the delimiter, the quote character, or a
line break character. -/
def needsQuote (s : String) : Bool :=
  s.data.any (fun c => c = ',' || c = '"' || c = '\n' || c = '\r')

/-- Double every quote character (csv `doublequote=True`). -/
def escQuotes : List Char → List Char
  | [] => []
  | c :: rest => if c = '"' then '"' :: '"' :: escQuotes rest else c :: escQuotes rest

/-- Render one CSV field: quote and escape it when needed, else verbatim. -/
def escapeField (s : String) : String :=
  if needsQuote s then String.mk ('"' :: (escQuotes s.data ++ ['"'])) else s

/-- Render one CSV row (no line terminator): fields joined with `","`. -/
def renderRow (fs : List String) : String :=
  pyJoin "," (fs.map escapeField)

/-- `df.to_csv(index=False)`: the header row then one row per record, each
terminated by a newline. -/
def toCsv (rows : List Record) : String :=
  String.join ((csvHeaders :: rows.map recordFields).map
    (fun fs => renderRow fs ++ "\n"))

/-- The body of the `st.button` block of the main action, given the ambient
credential and the outcome the extraction call would produce.  The `Bool`
records whether `extract_scenarios_with_function_call` was invoked. -/
def mainAction (apiKey : Option String)
    (extractionResult : Except String (List Record)) : UiOutcome × Bool :=
  if envFalsy apiKey then
    (UiOutcome.errorMsg apiKeyMsg, false)
  else
    match extractionResult with
    | Except.error e => (UiOutcome.errorMsg ("Something went wrong: " ++ e), true)
    | Except.ok rows =>
        if rows.isEmpty then (UiOutcome.warning emptyRowsMsg, true)
        else (UiOutcome.success rows (toCsv rows), true)

/-- Read a quoted CSV field body: consume until the closing quote, undoubling
doubled quotes; return the field's characters and the remaining input.  The
fuel only bounds the recursion depth; callers supply the input length, which
is always enough since every step consumes at least one character. -/
def parseQuotedAux : Nat → List Char → List Char × List Char
  | _, [] => ([], [])
  | 0, cs => ([], cs)
  | fuel + 1, c :: rest =>
    if c = '"' then
      match rest with
      | c2 :: rest2 =>
          if c2 = '"' then
            let p := parseQuotedAux fuel rest2
            ('"' :: p.1, p.2)
          else ([], rest)
      | [] => ([], [])
    else
      let p := parseQuotedAux fuel rest
      (c :: p.1, p.2)

/-- A character that terminates an unquoted CSV field. -/
def csvStop (c : Char) : Bool := c = ',' || c = '\n'

/-- Read one CSV field: a quoted field if the input starts with a quote,
otherwise everything up to the next delimiter or line break. -/
def parseField (cs : List Char) : String × List Char :=
  if cs.head? = some '"' then
    let p := parseQuotedAux cs.tail.length cs.tail
    (String.mk p.1, p.2)
  else
    (String.mk (cs.takeWhile (fun c => ! csvStop c)),
     cs.dropWhile (fun c => ! csvStop c))

/-- Read one five-field CSV row terminated by a newline; `none` when the
separators are not where a five-column row requires them. -/
def parseRow5 (cs : List Char) : Option (List String × List Char) :=
  let p1 := parseField cs
  match p1.2 with
  | ',' :: c1 =>
    let p2 := parseField c1
    match p2.2 with
    | ',' :: c2 =>
      let p3 := parseField c2
      match p3.2 with
      | ',' :: c3 =>
        let p4 := parseField c3
        match p4.2 with
        | ',' :: c4 =>
          let p5 := parseField c4
          match p5.2 with
          | '\n' :: c5 => some ([p1.1, p2.1, p3.1, p4.1, p5.1], c5)
          | _ => none
        | _ => none
      | _ => none
    | _ => none
  | _ => none

/-- The Unicode replacement character U+FFFD. -/
def replacementChar : Char := Char.ofNat 0xFFFD

/-- A UTF-8 continuation byte (`0x80..0xBF`). -/
def contOk (b : Nat) : Bool := 0x80 ≤ b && b ≤ 0xBF

/-- Allowed first continuation byte after a three-byte leader: `0xE0` narrows
it to `0xA0..0xBF`, `0xED` to `0x80..0x9F` (excluding surrogates). -/
def cont3Ok (b b1 : Nat) : Bool :=
  if b = 0xE0 then 0xA0 ≤ b1 && b1 ≤ 0xBF
  else if b = 0xED then 0x80 ≤ b1 && b1 ≤ 0x9F
  else contOk b1

/-- Allowed first continuation byte after a four-byte leader: `0xF0` narrows
it to `0x90..0xBF`, `0xF4` to `0x80..0x8F` (staying below U+110000). -/
def cont4Ok (b b1 : Nat) : Bool :=
  if b = 0xF0 then 0x90 ≤ b1 && b1 ≤ 0xBF
  else if b = 0xF4 then 0x80 ≤ b1 && b1 ≤ 0x8F
  else contOk b1

/-- `bytes.decode("utf-8", errors="replace")`, fuel-indexed body: strict
UTF-8 decoding where each maximal subpart of an ill-formed sequence becomes
one replacement character instead of raising.  The fuel only bounds the
recursion depth; `utf8DecodeReplace` supplies enough for it never to run
out (each step consumes at least one byte). -/
def utf8DecodeReplaceAux : Nat → List Nat → List Char
  | _, [] => []
  | 0, _ => []
  | fuel + 1, b :: rest =>
    if b ≤ 0x7F then Char.ofNat b :: utf8DecodeReplaceAux fuel rest
    else if 0xC2 ≤ b && b ≤ 0xDF then
      match rest with
      | b1 :: rest1 =>
          if contOk b1 then
            Char.ofNat ((b - 0xC0) * 0x40 + (b1 - 0x80)) ::
              utf8DecodeReplaceAux fuel rest1
          else replacementChar :: utf8DecodeReplaceAux fuel rest
      | [] => [replacementChar]
    else if 0xE0 ≤ b && b ≤ 0xEF then
      match rest with
      | b1 :: rest1 =>
          if cont3Ok b b1 then
            match rest1 with
            | b2 :: rest2 =>
                if contOk b2 then
                  Char.ofNat (((b - 0xE0) * 0x40 + (b1 - 0x80)) * 0x40 + (b2 - 0x80)) ::
                    utf8DecodeReplaceAux fuel rest2
                else replacementChar :: utf8DecodeReplaceAux fuel rest1
            | [] => [replacementChar]
          else replacementChar :: utf8DecodeReplaceAux fuel rest
      | [] => [replacementChar]
    else if 0xF0 ≤ b && b ≤ 0xF4 then
      match rest with
      | b1 :: rest1 =>
          if cont4Ok b b1 then
            match rest1 with
            | b2 :: rest2 =>
                if contOk b2 then
                  match rest2 with
                  | b3 :: rest3 =>
                      if contOk b3 then
                        Char.ofNat ((((b - 0xF0) * 0x40 + (b1 - 0x80)) * 0x40 +
                          (b2 - 0x80)) * 0x40 + (b3 - 0x80)) ::
                          utf8DecodeReplaceAux fuel rest3
                      else replacementChar :: utf8DecodeReplaceAux fuel rest2
                  | [] => [replacementChar]
                else replacementChar :: utf8DecodeReplaceAux fuel rest1
            | [] => [replacementChar]
          else replacementChar :: utf8DecodeReplaceAux fuel rest
      | [] => [replacementChar]
    else replacementChar :: utf8DecodeReplaceAux fuel rest

/-- `bytes.decode("utf-8", errors="replace")`: total on all byte sequences. -/
def utf8DecodeReplace (bs : List Nat) : List Char :=
  utf8DecodeReplaceAux bs.length bs

/-- `read_text`: decode the uploaded bytes, never propagating an exception.
The `errors="replace"` decode is total, so the result is always `ok`. -/
def read_text (file : List Nat) : Except String String :=
  Except.ok (String.mk (utf8DecodeReplace file))

example : read_text [0x41, 0xE2, 0x9C, 0x94] = Except.ok "A✔" := rfl

example : read_text [0x41, 0xFF, 0x42] = Except.ok (String.mk ['A', replacementChar, 'B']) :=
  rfl

example : read_text [0xE0, 0xA0] = Except.ok (String.mk [replacementChar]) := rfl

/-- Scenario whose module list has two raw entries but only one non-empty
entry after trimming. -/
def cexScenario1 : Scenario :=
  Scenario.mk PyStr.missing PyStr.missing (PyModules.list ["A", " "])
    PyStr.missing PyStr.missing

/-- Scenario whose module list has a whitespace-only middle entry. -/
def cexScenario7 : Scenario :=
  Scenario.mk PyStr.missing PyStr.missing (PyModules.list ["A", "  ", "B"])
    PyStr.missing PyStr.missing

/-- Scenario whose modules field is present but is the (falsy) empty string
rather than a list. -/
def cexScenario9 : Scenario :=
  Scenario.mk PyStr.missing PyStr.missing (PyModules.str "")
    PyStr.missing PyStr.missing

/-- Scenario with a two-entry module list and every other field absent. -/
def pairScenario : Scenario :=
  Scenario.mk PyStr.missing PyStr.missing (PyModules.list ["A", "B"])
    PyStr.missing PyStr.missing

/-- Scenario whose modules field is the non-empty non-list string "AB". -/
def strScenario : Scenario :=
  Scenario.mk PyStr.missing PyStr.missing (PyModules.str "AB")
    PyStr.missing PyStr.missing

/-- Modelled from the claim's wording, not from the code: the number of
module entries that are non-empty after whitespace trimming. -/
def specNonEmptyModuleCount (ms : List String) : Nat :=
  (ms.filter (fun m => pyStrip m ≠ "")).length

/-- Modelled from the claim's wording, not from the code: every module name
trimmed and joined with ", ", without dropping entries that trim to empty. -/
def specJoinAllTrimmed (ms : List String) : String :=
  pyJoin ", " (ms.map pyStrip)

theorem orDefault_notSpecified_ne (ps : PyStr) : orDefault ps notSpecified ≠ "" := by
  cases ps with
  | missing => simp [orDefault, notSpecified]
  | str s => by_cases h : s = "" <;> simp [orDefault, h, notSpecified]

theorem normalizeScenarios_eq_filter_map (scenarios : List Scenario) :
    normalizeScenarios scenarios =
      (scenarios.filter (fun s => survives s)).map normRecord := by
  simp only [normalizeScenarios]
  induction scenarios with
  | nil => rfl
  | cons s rest ih =>
      by_cases h : survives s = true <;>
        simp [List.filterMap_cons, List.filter_cons, h, ih]

/-- C1 counterexample: the element with module list `["A", " "]` has only one
non-empty entry after trimming, yet it is not discarded (the code counts raw
entries), and the resulting output record carries the single module `"A"`. -/
theorem C1_counterexample :
    specNonEmptyModuleCount ["A", " "] < 2 ∧
    normalizeScenarios [cexScenario1] ≠ [] ∧
    (normalizeScenarios [cexScenario1]).map Record.relatedModules = ["A"] := by
  decide

/-- C1 (amended): the normalizer discards an element exactly when its modules
value (after the `or []` fallback for falsy values) is a list with fewer than
two raw entries; entries are not trimmed or checked for emptiness first. -/
theorem C1_amended_discard_condition (s : Scenario) :
    survives s = false ↔
      ∃ ms, modulesVal s.related_modules_functions_systems = Sum.inl ms ∧
        ms.length < 2 := by
  rcases h : modulesVal s.related_modules_functions_systems with ms | str
  · simp [survives, h]
  · simp [survives, h]

/-- C2: the extraction raises the "no function call" error exactly when the
message's `tool_calls` is `None` or empty; with at least one tool call the
first call's parsed arguments are normalized and returned. -/
theorem C2_no_function_call_error (toolCalls : ToolCalls) :
    (extract_scenarios_with_function_call toolCalls =
        Except.error noFunctionCallMsg ↔
      toolCalls = none ∨ toolCalls = some []) ∧
    (∀ tc rest, toolCalls = some (tc :: rest) →
      extract_scenarios_with_function_call toolCalls =
        Except.ok (normalizeScenarios
          (tc.function.arguments.scenarios.getD []))) := by
  rcases toolCalls with _ | tcs
  · simp [extract_scenarios_with_function_call, toolCallsFalsy]
  · rcases tcs with _ | ⟨tc, rest⟩
    · simp [extract_scenarios_with_function_call, toolCallsFalsy]
    · constructor
      · simp [extract_scenarios_with_function_call, toolCallsFalsy]
      · intro tc2 rest2 h
        injection h with h1
        injection h1 with h2 h3
        subst h2
        simp [extract_scenarios_with_function_call, toolCallsFalsy]

/-- C2 witness: a concrete message with one tool call is parsed, not
rejected. -/
theorem C2_witness :
    extract_scenarios_with_function_call
        (some [ToolCall.mk (ToolFunction.mk (Args.mk (some [pairScenario])))]) =
      Except.ok (normalizeScenarios [pairScenario]) :=
  (C2_no_function_call_error _).2 _ _ rfl

/-- C3: with the credential absent, the main action shows the configuration
error and the extraction function is not invoked (the flag is `false`). -/
theorem C3_missing_credential (extractionResult : Except String (List Record)) :
    mainAction none extractionResult = (UiOutcome.errorMsg apiKeyMsg, false) := rfl

/-- C4: for a surviving element, each text field or flow classification that
is absent is set to exactly "Not specified in document" in the output. -/
theorem C4_missing_fields_defaulted (s : Scenario) (h : survives s = true) :
    normalizeScenarios [s] = [normRecord s] ∧
    (s.requirement_location = PyStr.missing →
      (normRecord s).requirementLocation = notSpecified) ∧
    (s.integration_flow_summary = PyStr.missing →
      (normRecord s).integrationFlowSummary = notSpecified) ∧
    (s.test_scenario_integration = PyStr.missing →
      (normRecord s).testScenario = notSpecified) ∧
    (s.flow_type = PyStr.missing →
      (normRecord s).mainAltExceptionFlow = notSpecified) := by
  refine ⟨by simp [normalizeScenarios, h], ?_, ?_, ?_, ?_⟩ <;>
    (intro hm ; simp [normRecord, hm, orDefault])

/-- C4 witness: a concrete all-absent element with two modules. -/
theorem C4_witness :
    normalizeScenarios [pairScenario] = [normRecord pairScenario] ∧
    (normRecord pairScenario).requirementLocation = notSpecified ∧
    (normRecord pairScenario).integrationFlowSummary = notSpecified ∧
    (normRecord pairScenario).testScenario = notSpecified ∧
    (normRecord pairScenario).mainAltExceptionFlow = notSpecified := by
  obtain ⟨h0, h1, h2, h3, h4⟩ := C4_missing_fields_defaulted pairScenario (by decide)
  exact ⟨h0, h1 rfl, h2 rfl, h3 rfl, h4 rfl⟩

/-- C5: decoding an uploaded byte sequence always succeeds with some
string; no exception propagates. -/
theorem C5_decode_total (bs : List Nat) : ∃ s, read_text bs = Except.ok s :=
  ⟨String.mk (utf8DecodeReplace bs), rfl⟩

/-- C6: the output is the order-preserving image of the surviving elements
(no reordering, no extra records). -/
theorem C6_order_preserved (scenarios : List Scenario) :
    normalizeScenarios scenarios =
      (scenarios.filter (fun s => survives s)).map normRecord ∧
    List.Sublist (normalizeScenarios scenarios) (scenarios.map normRecord) := by
  refine ⟨normalizeScenarios_eq_filter_map scenarios, ?_⟩
  rw [normalizeScenarios_eq_filter_map scenarios]
  exact (List.filter_sublist scenarios).map normRecord

/-- C7 counterexample: for the surviving module list `["A", "  ", "B"]` the
output field is `"A, B"`, not the claim's trim-and-join `"A, , B"`: entries
that trim to empty are dropped before joining. -/
theorem C7_counterexample :
    survives cexScenario7 = true ∧
    (normRecord cexScenario7).relatedModules = "A, B" ∧
    specJoinAllTrimmed ["A", "  ", "B"] = "A, , B" ∧
    (normRecord cexScenario7).relatedModules ≠
      specJoinAllTrimmed ["A", "  ", "B"] := by decide

/-- C7 (amended): for a surviving element with a module list, the output
field is the entries that are non-empty after trimming, each trimmed, joined
with ", ". -/
theorem C7_amended_join (s : Scenario) (ms : List String)
    (hm : s.related_modules_functions_systems = PyModules.list ms)
    (_hs : survives s = true) :
    (normRecord s).relatedModules =
      pyJoin ", " ((ms.filter (fun m => pyStrip m ≠ "")).map pyStrip) := by
  simp [normRecord, joinModules, hm, modulesVal, itemsOf]

/-- C7 witness: the amended join evaluated on a concrete list. -/
theorem C7_witness :
    (normRecord cexScenario7).relatedModules =
      pyJoin ", " (((["A", "  ", "B"] : List String).filter
        (fun m => pyStrip m ≠ "")).map pyStrip) :=
  C7_amended_join cexScenario7 ["A", "  ", "B"] rfl (by decide)

/-- C9 counterexample: a modules field that is present but the empty string
(a falsy non-list) is replaced by `[]` by the `or []` fallback, so the
length filter does apply and the element is discarded. -/
theorem C9_counterexample :
    cexScenario9.related_modules_functions_systems = PyModules.str "" ∧
    survives cexScenario9 = false ∧
    normalizeScenarios [cexScenario9] = [] := by decide

/-- C9 (amended): for an element whose modules field is a truthy (non-empty)
non-list string, the `isinstance` guard fails, the filter is skipped, and the
element reaches the output. -/
theorem C9_amended_nonempty_string (s : Scenario) (str : String)
    (hm : s.related_modules_functions_systems = PyModules.str str)
    (hne : str ≠ "") :
    survives s = true ∧ normalizeScenarios [s] = [normRecord s] := by
  have hs : survives s = true := by simp [survives, modulesVal, hm, hne]
  exact ⟨hs, by simp [normalizeScenarios, hs]⟩

/-- C9 witness: the modules value "AB" (a non-empty string) survives. -/
theorem C9_witness :
    survives strScenario = true ∧
    normalizeScenarios [strScenario] = [normRecord strScenario] :=
  C9_amended_nonempty_string strScenario "AB" rfl (by decide)

/-- C10: a present-but-empty text field or flow classification is also
replaced by the default, and no text field of an output record is the empty
string. -/
theorem C10_empty_fields_defaulted :
    (∀ d, orDefault (PyStr.str "") d = d) ∧
    (∀ (scenarios : List Scenario) (r : Record),
      r ∈ normalizeScenarios scenarios →
        r.requirementLocation ≠ "" ∧ r.integrationFlowSummary ≠ "" ∧
        r.testScenario ≠ "" ∧ r.mainAltExceptionFlow ≠ "") := by
  constructor
  · intro d; simp [orDefault]
  · intro scenarios r hr
    rw [normalizeScenarios] at hr
    rcases List.mem_filterMap.mp hr with ⟨s, _, hs⟩
    split at hs
    · cases hs
      exact ⟨orDefault_notSpecified_ne _, orDefault_notSpecified_ne _,
             orDefault_notSpecified_ne _, orDefault_notSpecified_ne _⟩
    · cases hs

/-- C10 witness: the empty-string field is defaulted, and a concrete output
record has no empty text field. -/
theorem C10_witness :
    orDefault (PyStr.str "") notSpecified = notSpecified ∧
    ((normRecord pairScenario).requirementLocation ≠ "" ∧
     (normRecord pairScenario).integrationFlowSummary ≠ "" ∧
     (normRecord pairScenario).testScenario ≠ "" ∧
     (normRecord pairScenario).mainAltExceptionFlow ≠ "") :=
  ⟨C10_empty_fields_defaulted.1 notSpecified,
   C10_empty_fields_defaulted.2 [pairScenario] (normRecord pairScenario)
     (by decide)⟩

theorem parseQuotedAux_succ (fuel : Nat) (c : Char) (rest : List Char) :
    parseQuotedAux (fuel + 1) (c :: rest) =
      if c = '"' then
        match rest with
        | c2 :: rest2 =>
            if c2 = '"' then
              ('"' :: (parseQuotedAux fuel rest2).1, (parseQuotedAux fuel rest2).2)
            else ([], rest)
        | [] => ([], [])
      else (c :: (parseQuotedAux fuel rest).1, (parseQuotedAux fuel rest).2) := rfl

theorem escQuotes_length (f : List Char) : f.length ≤ (escQuotes f).length := by
  induction f with
  | nil => simp [escQuotes]
  | cons c f ih =>
      by_cases hc : c = '"' <;> simp [escQuotes, hc] <;> omega

theorem parseQuoted_escape (f : List Char) (tail : List Char) (fuel : Nat)
    (hfuel : f.length + 1 ≤ fuel) (h : tail.head? ≠ some '"') :
    parseQuotedAux fuel (escQuotes f ++ '"' :: tail) = (f, tail) := by
  induction f generalizing fuel with
  | nil =>
      obtain ⟨g, rfl⟩ : ∃ g, fuel = g + 1 := ⟨fuel - 1, by omega⟩
      cases tail with
      | nil => rfl
      | cons c rest =>
          have hc : c ≠ '"' := by simpa using h
          simp [escQuotes, parseQuotedAux_succ, hc]
  | cons c f ih =>
      obtain ⟨g, rfl⟩ : ∃ g, fuel = g + 1 := ⟨fuel - 1, by omega⟩
      have hg : f.length + 1 ≤ g := by simp at hfuel; omega
      by_cases hc : c = '"'
      · subst hc
        have he2 : escQuotes ('"' :: f) ++ '"' :: tail =
            '"' :: '"' :: (escQuotes f ++ '"' :: tail) := by simp [escQuotes]
        rw [he2, parseQuotedAux_succ]
        simp [ih g hg]
      · have he2 : escQuotes (c :: f) ++ '"' :: tail =
            c :: (escQuotes f ++ '"' :: tail) := by simp [escQuotes, hc]
        rw [he2, parseQuotedAux_succ, if_neg hc, ih g hg]

theorem parseField_escape (s : String) (tail : List Char)
    (h : tail.head? = some ',' ∨ tail.head? = some '\n') :
    parseField ((escapeField s).data ++ tail) = (s, tail) := by
  have hh : tail.head? ≠ some '"' := by
    rcases h with h | h <;> rw [h] <;> decide
  by_cases hq : needsQuote s = true
  · have hd : (escapeField s).data = '"' :: (escQuotes s.data ++ ['"']) := by
      simp [escapeField, hq]
    rw [hd]
    have he : ('"' :: (escQuotes s.data ++ ['"'])) ++ tail =
        '"' :: (escQuotes s.data ++ '"' :: tail) := by simp
    rw [he, parseField]
    simp only [List.head?_cons, List.tail_cons]
    rw [if_true]
    have hlen : s.data.length + 1 ≤ (escQuotes s.data ++ '"' :: tail).length := by
      have h3 := escQuotes_length s.data
      rw [List.length_append, List.length_cons]
      omega
    rw [parseQuoted_escape s.data tail _ hlen hh]
  · have hne : needsQuote s = false := by simpa using hq
    have hd : escapeField s = s := by simp [escapeField, hne]
    rw [hd]
    have hchars : ∀ c ∈ s.data, (! csvStop c) = true := by
      intro c hc
      have h2 := List.any_eq_false.mp hne c hc
      simp at h2
      simp [csvStop]
      tauto
    have hstop : ∀ c, tail.head? = some c → csvStop c = true := by
      intro c hc
      rcases h with h | h <;> rw [h] at hc <;>
        · injection hc with hc2
          subst hc2
          decide
    have hhead : (s.data ++ tail).head? ≠ some '"' := by
      cases hs : s.data with
      | nil => simpa [hs] using hh
      | cons a l =>
          have h2 := List.any_eq_false.mp hne a (by rw [hs]; exact List.mem_cons_self a l)
          simp at h2
          simp [hs]
          tauto
    rw [parseField, if_neg hhead]
    have htake : (s.data ++ tail).takeWhile (fun c => ! csvStop c) = s.data := by
      rw [List.takeWhile_append_of_pos hchars]
      cases ht : tail with
      | nil => simp
      | cons a l =>
          have ha : csvStop a = true := hstop a (by rw [ht]; rfl)
          simp [List.takeWhile_cons, ha]
    have hdrop : (s.data ++ tail).dropWhile (fun c => ! csvStop c) = tail := by
      rw [List.dropWhile_append_of_pos hchars]
      cases ht : tail with
      | nil => simp
      | cons a l =>
          have ha : csvStop a = true := hstop a (by rw [ht]; rfl)
          simp [List.dropWhile_cons, ha]
    rw [htake, hdrop]

theorem parseField_escape_comma (s : String) (rest : List Char) :
    parseField ((escapeField s).data ++ ',' :: rest) = (s, ',' :: rest) :=
  parseField_escape s (',' :: rest) (Or.inl rfl)

theorem parseField_escape_newline (s : String) (rest : List Char) :
    parseField ((escapeField s).data ++ '\n' :: rest) = (s, '\n' :: rest) :=
  parseField_escape s ('\n' :: rest) (Or.inr rfl)

theorem comma_data : ("," : String).data = [','] := rfl

theorem newline_data : ("\n" : String).data = ['\n'] := rfl

theorem parseRow5_render (f1 f2 f3 f4 f5 : String) (tail : List Char) :
    parseRow5 ((renderRow [f1, f2, f3, f4, f5]).data ++ '\n' :: tail) =
      some ([f1, f2, f3, f4, f5], tail) := by
  have hdata : (renderRow [f1, f2, f3, f4, f5]).data ++ '\n' :: tail =
      (escapeField f1).data ++ ',' ::
        ((escapeField f2).data ++ ',' ::
          ((escapeField f3).data ++ ',' ::
            ((escapeField f4).data ++ ',' ::
              ((escapeField f5).data ++ '\n' :: tail)))) := by
    simp [renderRow, pyJoin, String.data_append, comma_data, List.append_assoc]
  rw [hdata, parseRow5]
  rw [parseField_escape_comma f1]
  simp only
  rw [parseField_escape_comma f2]
  simp only
  rw [parseField_escape_comma f3]
  simp only
  rw [parseField_escape_comma f4]
  simp only
  rw [parseField_escape_newline f5]
  rfl

/-- C8: rendering a normalized record to CSV (header row plus one data row,
quoted and escaped as `to_csv` does) and parsing it back yields the header
fields and then exactly the record's five field values. -/
theorem C8_csv_roundtrip (r : Record) :
    parseRow5 (toCsv [r]).data =
      some (csvHeaders, (renderRow (recordFields r)).data ++ ['\n']) ∧
    parseRow5 ((renderRow (recordFields r)).data ++ ['\n']) =
      some (recordFields r, []) := by
  constructor
  · have h1 : (toCsv [r]).data =
        (renderRow csvHeaders).data ++ '\n' ::
          ((renderRow (recordFields r)).data ++ ['\n']) := by
      simp [toCsv, String.join, String.data_append, newline_data]
    rw [h1]
    exact parseRow5_render _ _ _ _ _ _
  · exact parseRow5_render _ _ _ _ _ _

example :
    parseRow5 ((renderRow (recordFields (Record.mk "a,b" "say \"hi\"" "M1, M2"
        "line1\nline2" "Main Flow"))).data ++ ['\n']) =
      some (["a,b", "say \"hi\"", "M1, M2", "line1\nline2", "Main Flow"], []) := by
  decide
